import Mathlib

/-!
Shallow embedding of the uwsgi daemon lifecycle commands of
`src/tools/pytools.py` (functions `_is_uwsgi_running`, `StartCommand.impl`,
`StopCommand.impl`, and the command-execution wrapper
`ContextUtilsMixin.exec_command`), together with theorems settling the
claims about the spec of this lifecycle manager.

Modelling conventions:
  * The filesystem state relevant to the commands is the content of the
    single PID file (`ctx.pyd.uwsgi_pid`): `none` when the file is absent,
    `some c` when it exists with textual content `c`.
  * The OS process table maps candidate PIDs to one of three states:
    the process does not exist (`os.kill` raises `OSError(ESRCH)`), it
    exists and is signalable by the caller (`os.kill` succeeds), or it
    exists but the caller lacks permission (`os.kill` raises
    `OSError(EPERM)`).
  * Python exceptions escaping a command are `Except.error` values;
    `ValueError` is what `int()` raises on an unparsable string.
  * The polling loop in `StopCommand.impl` interacts with a process whose
    liveness changes over time; this is modelled by a trace
    `Nat → ProcState` giving the process state at each successive
    `os.kill` call, plus a fuel bound on how many polls we observe
    (the source loop itself has no bound).
-/

/-- State of one process in the OS process table, as observable through
`os.kill(pid, sig)`. -/
inductive ProcState where
  | dead          -- no such process: os.kill raises OSError(ESRCH)
  | aliveOk       -- exists and signalable: os.kill succeeds
  | aliveNoPerm   -- exists, caller lacks rights: os.kill raises OSError(EPERM)
deriving DecidableEq, Repr

/-- Errno carried by an `OSError` raised from `os.kill`. -/
inductive OSErr where
  | esrch
  | eperm
deriving DecidableEq, Repr

/-- Python exceptions that can escape the embedded commands. -/
inductive PyErr where
  | valueError (content : String)  -- int() failed to parse `content`
  | ioError                        -- open() on a missing file
  | wafError (msg : String)        -- Errors.WafError
deriving DecidableEq, Repr

/-- The state the commands read and mutate: the PID file
(`none` = absent, `some c` = file exists with content `c`) and the
process table. -/
structure SysState where
  pidfile : Option String
  procs : Int → ProcState

/-- Result of `os.kill(pid, sig)` on a process in state `p`: succeeds only
when the process exists and is signalable, regardless of the signal value. -/
def osKill (p : ProcState) : Except OSErr Unit :=
  match p with
  | .dead => .error .esrch
  | .aliveOk => .ok ()
  | .aliveNoPerm => .error .eperm

/-- Whitespace characters removed by Python `str.strip()`. -/
def isPySpace (c : Char) : Bool :=
  c == ' ' || c == '\t' || c == '\n' || c == '\r' || c == '\x0b' || c == '\x0c'

/-- `str.strip()`: remove leading and trailing whitespace. -/
def pyStrip (l : List Char) : List Char :=
  ((l.dropWhile isPySpace).reverse.dropWhile isPySpace).reverse

/-- Value of a decimal digit character, `none` for non-digits. -/
def digitVal (c : Char) : Option Nat :=
  if '0' ≤ c ∧ c ≤ '9' then some (c.toNat - '0'.toNat) else none

/-- Accumulate a base-10 numeral; fails on the first non-digit. -/
def digitsToNatAux : List Char → Nat → Option Nat
  | [], acc => some acc
  | c :: cs, acc =>
    match digitVal c with
    | none => none
    | some d => digitsToNatAux cs (acc * 10 + d)

/-- Parse a nonempty all-digit character list as a natural number. -/
def digitsToNat (l : List Char) : Option Nat :=
  match l with
  | [] => none
  | _ => digitsToNatAux l 0

/-- Semantics of Python `int(c.strip())` as used on the PID-file content:
strip surrounding whitespace, then accept an optional sign followed by a
nonempty digit string; anything else raises `ValueError`. -/
def pyIntOfString (s : String) : Option Int :=
  match pyStrip s.data with
  | '-' :: rest => (digitsToNat rest).map (fun n => -(n : Int))
  | '+' :: rest => (digitsToNat rest).map (fun n => (n : Int))
  | l => (digitsToNat l).map (fun n => (n : Int))

/-- Embedding of `_is_uwsgi_running` (pytools.py lines 482-492).
Returns the boolean the function returns, the resulting filesystem state,
and the list of `os.kill(pid, sig)` calls that were delivered (signal 0 is
the liveness probe).  The `except OSError` branch deletes the PID file;
a non-integer PID file makes the `int()` call raise `ValueError`, which
is not caught. -/
def isUwsgiRunning (s : SysState) : Except PyErr (Bool × SysState × List (Int × Int)) :=
  match s.pidfile with
  | none => .ok (false, s, [])
  | some c =>
    match pyIntOfString c with
    | none => .error (.valueError c)
    | some pid =>
      match osKill (s.procs pid) with
      | .ok _ => .ok (true, s, [(pid, 0)])
      | .error _ => .ok (false, { s with pidfile := none }, [])

/-- The externally observable daemon state of the spec: `stopped` or
`running pid`. -/
inductive DaemonState where
  | stopped
  | running (pid : Int)
deriving DecidableEq, Repr

/-- The repository's status observation: `_is_uwsgi_running` decides
running/stopped, and in the running case the reported PID is the one
parsed from the PID file (the only PID the probe consulted). -/
def statusCmd (s : SysState) : Except PyErr (DaemonState × SysState) :=
  match isUwsgiRunning s with
  | .error e => .error e
  | .ok (false, s1, _) => .ok (.stopped, s1)
  | .ok (true, s1, _) =>
    match s1.pidfile.bind pyIntOfString with
    | some p => .ok (.running p, s1)
    | none => .ok (.stopped, s1)

inductive StartOutcome where
  | started
  | alreadyRunning
deriving DecidableEq, Repr

/-- Embedding of `StartCommand.impl` (pytools.py lines 499-507).
If the probe reports running, it returns without doing anything further.
Otherwise it runs `uwsgi --ini conf --daemonize log` via `exec_command`;
that external invocation is modelled by `spawn`, which yields the PID of
the daemonized process and the world state after daemonization.  The
command itself never looks at that PID (the source captures no PID:
`exec_command` returns `None`). -/
def startCmd (s : SysState) (spawn : SysState → Int × SysState) :
    Except PyErr (StartOutcome × SysState) :=
  match isUwsgiRunning s with
  | .error e => .error e
  | .ok (true, s1, _) => .ok (.alreadyRunning, s1)
  | .ok (false, s1, _) => .ok (.started, (spawn s1).2)

/-- Contract of the spawn step (the uwsgi binary invoked in `--daemonize`
mode, external to this repository): when it returns, the PID file holds
exactly the PID of the daemonized process and that process is alive and
signalable.  This is the spec's `spawn_fn` contract, §6. -/
def SpawnContract (spawn : SysState → Int × SysState) : Prop :=
  ∀ s, (∃ c, ((spawn s).2).pidfile = some c ∧ pyIntOfString c = some (spawn s).1)
    ∧ ((spawn s).2).procs (spawn s).1 = .aliveOk

/-- POSIX signal number of SIGQUIT, the graceful-quit signal the stop
command sends (`os.kill(pid, signal.SIGQUIT)`). -/
def SIGQUIT : Int := 3

/-- POSIX signal number of SIGKILL, the hard kill; never used by the
source. -/
def SIGKILL : Int := 9

/-- Index of the first `os.kill` call in the stop command's try block that
raises `OSError`, observing at most `fuel` calls starting at index `k`:
call 0 is the SIGQUIT send, calls 1, 2, ... are the `os.kill(pid, 0)`
polls of the `while True` loop.  `none` means every observed call found
the process alive and signalable, so the loop is still running. -/
def firstNotOk (trace : Nat → ProcState) (k fuel : Nat) : Option Nat :=
  match fuel with
  | 0 => none
  | fuel + 1 =>
    if trace k = .aliveOk then firstNotOk trace (k + 1) fuel else some k

/-- The `os.kill` deliveries performed by the stop command's try block when
its first `polls` calls succeed: the SIGQUIT send followed by liveness
probes. -/
def stopDeliveries (pid : Int) (polls : Nat) : List (Int × Int) :=
  match polls with
  | 0 => []
  | k + 1 => (pid, SIGQUIT) :: List.replicate k (pid, 0)

/-- Embedding of the guarded unlink in `StopCommand.impl` (pytools.py
lines 541-542): `if os.path.exists(pidfile): os.unlink(pidfile)`. -/
def clearPidfile (s : SysState) : SysState :=
  if s.pidfile.isSome then { s with pidfile := none } else s

inductive StopOutcome where
  | notRunning    -- early return: "ok - not running"
  | stopped       -- OSError escaped the loop, PID file cleared, "ok"
  | stillWaiting  -- the while True loop has not exited within `fuel` polls
deriving DecidableEq, Repr

/-- Embedding of `StopCommand.impl` (pytools.py lines 529-543).
If the probe reports not running, return early.  Otherwise re-read and
re-parse the PID file, send SIGQUIT, and poll `os.kill(pid, 0)` in an
unbounded loop; the first `OSError` breaks out to the except branch which
deletes the PID file.  `fuel` bounds how many kill calls we observe;
`.stillWaiting` means the source loop is still spinning after that many.
Returns the outcome, the final state, and every delivered kill call. -/
def stopCmd (s : SysState) (trace : Nat → ProcState) (fuel : Nat) :
    Except PyErr (StopOutcome × SysState × List (Int × Int)) :=
  match isUwsgiRunning s with
  | .error e => .error e
  | .ok (false, s1, log) => .ok (.notRunning, s1, log)
  | .ok (true, s1, log) =>
    match s1.pidfile with
    | none => .error .ioError
    | some c =>
      match pyIntOfString c with
      | none => .error (.valueError c)
      | some pid =>
        match firstNotOk trace 0 fuel with
        | some k => .ok (.stopped, clearPidfile s1, log ++ stopDeliveries pid k)
        | none => .ok (.stillWaiting, s1, log ++ stopDeliveries pid fuel)

/-- The WafError message format of `ContextUtilsMixin.exec_command`
(pytools.py line 287): `"command(%r) failed with code(%r)" % (cmd, ret)`. -/
def wafErrorMsg (cmd : String) (ret : Int) : String :=
  "command(" ++ cmd ++ ") failed with code(" ++ toString ret ++ ")"

/-- Embedding of `ContextUtilsMixin.exec_command` (pytools.py lines
284-287): `ret` is the exit code of the underlying subprocess; a nonzero
code raises `Errors.WafError`, and the wrapper has no return statement, so
on success it returns Python `None` (modelled as `.ok none` — the success
value never carries the exit code). -/
def exec_command (cmd : String) (ret : Int) : Except PyErr (Option Int) :=
  if ret ≠ 0 then .error (.wafError (wafErrorMsg cmd ret)) else .ok none

/-! Concrete states and traces used by witnesses and counterexamples. -/

/-- A process table where only PID 7 exists and is signalable. -/
def procsOnly7 : Int → ProcState := fun p => if p = 7 then .aliveOk else .dead

/-- State whose PID file records the live, signalable PID 7. -/
def sLive : SysState := { pidfile := some "7", procs := procsOnly7 }

/-- State whose PID file records PID 7 but no process exists. -/
def sStale : SysState := { pidfile := some "7", procs := fun _ => .dead }

/-- State with no PID file. -/
def sAbsent : SysState := { pidfile := none, procs := fun _ => .dead }

/-- State whose PID file records PID 7, where PID 7 exists but the caller
lacks permission to signal it. -/
def sPerm : SysState := { pidfile := some "7", procs := fun _ => .aliveNoPerm }

/-- State whose PID file contains non-integer content. -/
def sCorrupt : SysState := { pidfile := some "garbage", procs := fun _ => .dead }

/-- A process that is alive and signalable at every poll: the stop loop's
target never exits. -/
def traceAlive : Nat → ProcState := fun _ => .aliveOk

/-- A process that survives the SIGQUIT and one poll, then exits. -/
def traceDiesAt2 : Nat → ProcState := fun k => if k < 2 then .aliveOk else .dead

/-- A spawn step that daemonizes as PID 7, writes "7" to the PID file and
leaves PID 7 alive and signalable. -/
def spawn7 : SysState → Int × SysState :=
  fun s => (7, { pidfile := some "7", procs := fun p => if p = 7 then .aliveOk else s.procs p })

/-- A spawn step that does nothing (used where a claim must hold for every
spawn argument). -/
def spawnNoop : SysState → Int × SysState := fun s => (0, s)

/-! Helper lemmas. -/

/-- Concrete parse fact used to unfold the witness states. -/
theorem pyIntOfString_seven : pyIntOfString "7" = some 7 := rfl

/-- If the probe reports running, it changed nothing: the `true` branch of
`_is_uwsgi_running` returns the state it was given. -/
theorem isUwsgiRunning_true_frame (s t : SysState) (l : List (Int × Int))
    (h : isUwsgiRunning s = .ok (true, t, l)) : t = s := by
  unfold isUwsgiRunning at h
  split at h
  · simp_all
  · split at h
    · simp_all
    · split at h
      · simp_all
      · simp_all

/-- A process that is signalable at every poll never breaks the stop
command's wait loop. -/
theorem firstNotOk_of_allAlive (trace : Nat → ProcState)
    (h : ∀ j, trace j = .aliveOk) : ∀ fuel k, firstNotOk trace k fuel = none := by
  intro fuel
  induction fuel with
  | zero => intro k; rfl
  | succ n ih => intro k; simp [firstNotOk, h k, ih]

/-- Liveness probes (signal 0) are filtered out of a delivery log. -/
theorem filter_probe_replicate (p : Int) :
    ∀ k, (List.replicate k (p, (0 : Int))).filter (fun x => x.2 != 0) = [] := by
  intro k
  induction k with
  | zero => rfl
  | succ n ih => simp [List.replicate_succ, List.filter, ih]

/-- The nonzero signals delivered by a completed stop are exactly one
SIGQUIT to the recorded PID. -/
theorem stopDeliveries_filter (p : Int) (k : Nat) :
    ((p, (0 : Int)) :: stopDeliveries p (k + 1)).filter (fun x => x.2 != 0) = [(p, SIGQUIT)] := by
  simp [stopDeliveries, List.filter, filter_probe_replicate, SIGQUIT]

/-- The spawn step `spawn7` satisfies the spawn contract. -/
theorem spawn7_contract : SpawnContract spawn7 := by
  intro s
  refine ⟨⟨"7", rfl, rfl⟩, ?_⟩
  simp [spawn7]

/-! Claim theorems. -/

/-- Claim C1 (corrected): the wait inside `stop` is unbounded.  There is no
timeout parameter and no ShutdownTimeout failure: when the recorded process
stays alive and signalable at every poll, the stop command is still inside
its `while True` loop after any number of polls, having delivered the
SIGQUIT and one liveness probe per poll, with the PID file untouched. -/
theorem c1_stop_wait_unbounded (s : SysState) (c : String) (p : Int)
    (trace : Nat → ProcState) (fuel : Nat)
    (h1 : s.pidfile = some c) (h2 : pyIntOfString c = some p)
    (h3 : s.procs p = .aliveOk) (h4 : ∀ j, trace j = .aliveOk) :
    stopCmd s trace fuel = .ok (.stillWaiting, s, (p, 0) :: stopDeliveries p fuel) := by
  simp [stopCmd, isUwsgiRunning, osKill, h1, h2, h3, firstNotOk_of_allAlive trace h4]

/-- Witness for C1 (amended): a concrete run that is still waiting after
four polls. -/
theorem c1_stop_wait_unbounded_witness :
    stopCmd sLive traceAlive 4 = .ok (.stillWaiting, sLive, (7, 0) :: stopDeliveries 7 4) :=
  c1_stop_wait_unbounded sLive "7" 7 traceAlive 4 rfl rfl rfl (fun _ => rfl)

/-- Counterexample to C1 as stated: on a daemon that never exits, after
1000 liveness polls `stop` has neither returned nor produced any
ShutdownTimeout failure — it is still inside the loop and the PID file and
state are untouched, so no timeout bounds the wait. -/
theorem c1_counterexample :
    stopCmd sLive traceAlive 1000 = .ok (.stillWaiting, sLive, (7, 0) :: stopDeliveries 7 1000) := by
  simp [stopCmd, isUwsgiRunning, osKill, sLive, procsOnly7, pyIntOfString_seven,
        firstNotOk_of_allAlive traceAlive (fun _ => rfl)]

/-- Claim C2 (corrected): when the recorded process exists but the caller
lacks the right to signal it, the probe lands in the same `except OSError`
branch as a dead process: it reports not-running (no PermissionDenied error
is surfaced) and deletes the PID file, and `status` consequently reports
stopped. -/
theorem c2_eperm_treated_as_dead (s : SysState) (c : String) (p : Int)
    (h1 : s.pidfile = some c) (h2 : pyIntOfString c = some p)
    (h3 : s.procs p = .aliveNoPerm) :
    isUwsgiRunning s = .ok (false, { s with pidfile := none }, []) ∧
    statusCmd s = .ok (.stopped, { s with pidfile := none }) := by
  constructor <;> simp [statusCmd, isUwsgiRunning, osKill, h1, h2, h3]

/-- Witness for C2 (amended), at a concrete state whose PID 7 exists but is
not signalable by the caller. -/
theorem c2_eperm_treated_as_dead_witness :
    isUwsgiRunning sPerm = .ok (false, { sPerm with pidfile := none }, []) ∧
    statusCmd sPerm = .ok (.stopped, { sPerm with pidfile := none }) :=
  c2_eperm_treated_as_dead sPerm "7" 7 rfl rfl rfl

/-- Counterexample to C2 as stated: in `sPerm` the PID file records PID 7,
the process exists but the caller lacks rights to signal it, yet the probe
returns success with `false` (treating it as not alive) and the PID file is
deleted — no distinct PermissionDenied error is raised. -/
theorem c2_counterexample :
    sPerm.pidfile = some "7" ∧ sPerm.procs 7 = .aliveNoPerm ∧
    isUwsgiRunning sPerm = .ok (false, { sPerm with pidfile := none }, []) ∧
    ({ sPerm with pidfile := none } : SysState).pidfile = none :=
  ⟨rfl, rfl, rfl, rfl⟩

/-- Claim C3 (corrected): a PID file whose content does not parse as an
integer makes the uncaught `ValueError` from `int()` escape each of
`status`, `start` and `stop`; there is no distinct CorruptState
classification, and the file is not treated as absent (no command reports
stopped). -/
theorem c3_corrupt_pidfile_valueerror (s : SysState) (c : String)
    (spawn : SysState → Int × SysState) (trace : Nat → ProcState) (fuel : Nat)
    (h1 : s.pidfile = some c) (h2 : pyIntOfString c = none) :
    statusCmd s = .error (.valueError c) ∧
    startCmd s spawn = .error (.valueError c) ∧
    stopCmd s trace fuel = .error (.valueError c) := by
  refine ⟨?_, ?_, ?_⟩ <;>
    simp [statusCmd, startCmd, stopCmd, isUwsgiRunning, h1, h2]

/-- Witness for C3 (amended) at a concrete corrupt state. -/
theorem c3_corrupt_pidfile_valueerror_witness :
    statusCmd sCorrupt = .error (.valueError "garbage") ∧
    startCmd sCorrupt spawn7 = .error (.valueError "garbage") ∧
    stopCmd sCorrupt traceAlive 3 = .error (.valueError "garbage") :=
  c3_corrupt_pidfile_valueerror sCorrupt "garbage" spawn7 traceAlive 3 rfl rfl

/-- Counterexample to C3 as stated: on the concrete state whose PID file
contains "garbage", all three commands propagate the raw `ValueError`
raised by `int()` — an unclassified crash, not a distinct CorruptState
error value. -/
theorem c3_counterexample :
    statusCmd sCorrupt = .error (.valueError "garbage") ∧
    startCmd sCorrupt spawnNoop = .error (.valueError "garbage") ∧
    stopCmd sCorrupt traceDiesAt2 3 = .error (.valueError "garbage") :=
  ⟨rfl, rfl, rfl⟩

/-- Claim C4 (confirmed): `status` self-heals.  With a PID file recording a
dead process, it reports stopped and the PID file no longer exists
afterward; with no PID file it reports stopped; with a PID file recording a
live, signalable process P it reports running(P).  (Liveness here is what
`os.kill(pid, 0)` checks: the process exists and is signalable; the
exists-but-unsignalable case is settled under C2.) -/
theorem c4_status_self_heal (s : SysState) (c : String) (p : Int) :
    (s.pidfile = some c → pyIntOfString c = some p → s.procs p = .dead →
      statusCmd s = .ok (.stopped, { s with pidfile := none }) ∧
      ({ s with pidfile := none } : SysState).pidfile = none) ∧
    (s.pidfile = none → statusCmd s = .ok (.stopped, s)) ∧
    (s.pidfile = some c → pyIntOfString c = some p → s.procs p = .aliveOk →
      statusCmd s = .ok (.running p, s)) := by
  refine ⟨fun h1 h2 h3 => ⟨?_, rfl⟩, fun h1 => ?_, fun h1 h2 h3 => ?_⟩
  · simp [statusCmd, isUwsgiRunning, osKill, h1, h2, h3]
  · simp [statusCmd, isUwsgiRunning, h1]
  · simp [statusCmd, isUwsgiRunning, osKill, h1, h2, h3]

/-- Witness for C4: the three branches at concrete states (stale PID 7,
absent file, live PID 7). -/
theorem c4_status_self_heal_witness :
    statusCmd sStale = .ok (.stopped, { sStale with pidfile := none }) ∧
    statusCmd sAbsent = .ok (.stopped, sAbsent) ∧
    statusCmd sLive = .ok (.running 7, sLive) :=
  ⟨((c4_status_self_heal sStale "7" 7).1 rfl rfl rfl).1,
   (c4_status_self_heal sAbsent "7" 7).2.1 rfl,
   (c4_status_self_heal sLive "7" 7).2.2 rfl rfl rfl⟩

/-- Claim C5 (confirmed): round trip.  From any state the probe reports as
stopped, `start` invokes the spawn step; under the spawn contract (the
daemonized process's PID ends up in the PID file and that process is
alive), a subsequent `status` reports running with exactly the spawned
PID. -/
theorem c5_start_round_trip (s s1 : SysState) (log : List (Int × Int))
    (spawn : SysState → Int × SysState) (hc : SpawnContract spawn)
    (h : isUwsgiRunning s = .ok (false, s1, log)) :
    startCmd s spawn = .ok (.started, (spawn s1).2) ∧
    (∃ c, ((spawn s1).2).pidfile = some c ∧ pyIntOfString c = some (spawn s1).1) ∧
    statusCmd ((spawn s1).2) = .ok (.running (spawn s1).1, (spawn s1).2) := by
  obtain ⟨⟨c, hcpid, hcparse⟩, halive⟩ := hc s1
  refine ⟨?_, ⟨c, hcpid, hcparse⟩, ?_⟩
  · simp [startCmd, h]
  · simp [statusCmd, isUwsgiRunning, osKill, hcpid, hcparse, halive]

/-- Witness for C5: starting from the state with no PID file, with the
concrete spawn step that daemonizes as PID 7. -/
theorem c5_start_round_trip_witness :
    startCmd sAbsent spawn7 = .ok (.started, (spawn7 sAbsent).2) ∧
    (∃ c, ((spawn7 sAbsent).2).pidfile = some c ∧ pyIntOfString c = some (spawn7 sAbsent).1) ∧
    statusCmd ((spawn7 sAbsent).2) = .ok (.running (spawn7 sAbsent).1, (spawn7 sAbsent).2) :=
  c5_start_round_trip sAbsent sAbsent [] spawn7 spawn7_contract rfl

/-- Claim C6 (confirmed): `start` is idempotent.  On a state whose recorded
PID is alive and signalable, `start` is a no-op success for every spawn
argument (nothing is spawned, nothing changes).  Starting twice from the
stopped state spawns once: the second call is a no-op for every spawn
argument, the single recorded PID is the spawned one, and `status` reports
running after both calls. -/
theorem c6_start_idempotent (s : SysState) (c : String) (p : Int)
    (spawn spawn2 : SysState → Int × SysState) (hc : SpawnContract spawn) :
    (s.pidfile = some c → pyIntOfString c = some p → s.procs p = .aliveOk →
      startCmd s spawn2 = .ok (.alreadyRunning, s)) ∧
    (s.pidfile = none →
      startCmd s spawn = .ok (.started, (spawn s).2) ∧
      startCmd ((spawn s).2) spawn2 = .ok (.alreadyRunning, (spawn s).2) ∧
      statusCmd ((spawn s).2) = .ok (.running (spawn s).1, (spawn s).2)) := by
  obtain ⟨⟨d, hdpid, hdparse⟩, halive⟩ := hc s
  refine ⟨fun h1 h2 h3 => ?_, fun h1 => ⟨?_, ?_, ?_⟩⟩
  · simp [startCmd, isUwsgiRunning, osKill, h1, h2, h3]
  · simp [startCmd, isUwsgiRunning, h1]
  · simp [startCmd, isUwsgiRunning, osKill, hdpid, hdparse, halive]
  · simp [statusCmd, isUwsgiRunning, osKill, hdpid, hdparse, halive]

/-- Witness for C6: a no-op second start on the live state, and a started
then no-op pair from the absent state. -/
theorem c6_start_idempotent_witness :
    startCmd sLive spawnNoop = .ok (.alreadyRunning, sLive) ∧
    (startCmd sAbsent spawn7 = .ok (.started, (spawn7 sAbsent).2) ∧
     startCmd ((spawn7 sAbsent).2) spawnNoop = .ok (.alreadyRunning, (spawn7 sAbsent).2) ∧
     statusCmd ((spawn7 sAbsent).2) = .ok (.running (spawn7 sAbsent).1, (spawn7 sAbsent).2)) :=
  ⟨(c6_start_idempotent sLive "7" 7 spawn7 spawnNoop spawn7_contract).1 rfl rfl rfl,
   (c6_start_idempotent sAbsent "7" 7 spawn7 spawnNoop spawn7_contract).2 rfl⟩

/-- Claim C7 (confirmed): `stop` on an already-stopped controller is a
no-op success and leaves no PID file — whether the file was already absent
or recorded a process the liveness probe finds not signalable (the probe
deletes it on the way).  The guarded unlink of the stop command is
idempotent: clearing an absent file is a no-op, and clearing twice equals
clearing once. -/
theorem c7_stop_idempotent (s : SysState) (c : String) (p : Int)
    (trace : Nat → ProcState) (fuel : Nat) :
    (s.pidfile = none → stopCmd s trace fuel = .ok (.notRunning, s, [])) ∧
    (s.pidfile = some c → pyIntOfString c = some p → s.procs p ≠ .aliveOk →
      stopCmd s trace fuel = .ok (.notRunning, { s with pidfile := none }, [])) ∧
    (s.pidfile = none → clearPidfile s = s) ∧
    clearPidfile (clearPidfile s) = clearPidfile s := by
  refine ⟨fun h1 => ?_, fun h1 h2 h3 => ?_, fun h1 => ?_, ?_⟩
  · simp [stopCmd, isUwsgiRunning, h1]
  · cases hp : s.procs p with
    | dead => simp [stopCmd, isUwsgiRunning, osKill, h1, h2, hp]
    | aliveOk => exact absurd hp h3
    | aliveNoPerm => simp [stopCmd, isUwsgiRunning, osKill, h1, h2, hp]
  · simp [clearPidfile, h1]
  · cases hpf : s.pidfile <;> simp [clearPidfile, hpf]

/-- Witness for C7: stop on the absent state and on the stale state, plus
the clearing facts at those states. -/
theorem c7_stop_idempotent_witness :
    stopCmd sAbsent traceAlive 3 = .ok (.notRunning, sAbsent, []) ∧
    stopCmd sStale traceAlive 3 = .ok (.notRunning, { sStale with pidfile := none }, []) ∧
    clearPidfile sAbsent = sAbsent ∧
    clearPidfile (clearPidfile sStale) = clearPidfile sStale :=
  ⟨(c7_stop_idempotent sAbsent "7" 7 traceAlive 3).1 rfl,
   (c7_stop_idempotent sStale "7" 7 traceAlive 3).2.1 rfl rfl (fun h => nomatch h),
   (c7_stop_idempotent sAbsent "7" 7 traceAlive 3).2.2.1 rfl,
   (c7_stop_idempotent sStale "7" 7 traceAlive 3).2.2.2⟩

/-- Claim C8 (confirmed): on a running state, `stop` sends exactly one
SIGQUIT — the graceful quit signal, which differs from SIGKILL — to the
recorded PID, polls its liveness until the first poll that finds it gone,
and then deletes the PID file.  The delivery log contains the SIGQUIT and
the liveness probes (signal 0) and nothing else. -/
theorem c8_stop_sends_sigquit (s : SysState) (c : String) (p : Int)
    (trace : Nat → ProcState) (fuel k : Nat)
    (h1 : s.pidfile = some c) (h2 : pyIntOfString c = some p)
    (h3 : s.procs p = .aliveOk) (h4 : firstNotOk trace 0 fuel = some (k + 1)) :
    stopCmd s trace fuel =
      .ok (.stopped, { s with pidfile := none }, (p, 0) :: stopDeliveries p (k + 1)) ∧
    ((p, (0 : Int)) :: stopDeliveries p (k + 1)).filter (fun x => x.2 != 0) = [(p, SIGQUIT)] ∧
    SIGQUIT ≠ SIGKILL := by
  refine ⟨?_, stopDeliveries_filter p k, by decide⟩
  simp [stopCmd, isUwsgiRunning, osKill, clearPidfile, h1, h2, h3, h4]

/-- Witness for C8: stopping the live PID 7, whose process survives the
SIGQUIT and one poll and is found gone at the second poll. -/
theorem c8_stop_sends_sigquit_witness :
    stopCmd sLive traceDiesAt2 5 =
      .ok (.stopped, { sLive with pidfile := none }, (7, 0) :: stopDeliveries 7 2) ∧
    ((7, (0 : Int)) :: stopDeliveries 7 2).filter (fun x => x.2 != 0) = [(7, SIGQUIT)] ∧
    SIGQUIT ≠ SIGKILL :=
  c8_stop_sends_sigquit sLive "7" 7 traceDiesAt2 5 1 rfl rfl rfl rfl

/-- Claim C9 (confirmed): a running status observation is pure.  Whenever
`status` reports the daemon as running, the state it returns is exactly the
state it was given: the PID file is deleted only on the branch where the
recorded process is found dead. -/
theorem c9_running_status_frame (s t : SysState) (p : Int)
    (h : statusCmd s = .ok (.running p, t)) : t = s := by
  rcases s with ⟨pf, procs⟩
  cases pf with
  | none => simp [statusCmd, isUwsgiRunning] at h
  | some c =>
    cases hp : pyIntOfString c with
    | none => simp [statusCmd, isUwsgiRunning, hp] at h
    | some q =>
      cases hk : osKill (procs q) with
      | ok u => simp [statusCmd, isUwsgiRunning, hp, hk] at h; exact h.2.symm
      | error e => simp [statusCmd, isUwsgiRunning, hp, hk] at h

/-- Witness for C9 at the live state. -/
theorem c9_running_status_frame_witness :
    statusCmd sLive = .ok (.running 7, sLive) ∧ sLive = sLive :=
  ⟨rfl, c9_running_status_frame sLive sLive 7 rfl⟩

/-- Claim C10 (confirmed): the command-execution wrapper raises a WafError
whose message names the command and the exit code whenever the subprocess
exit code is nonzero, and on success returns Python `None` — the success
value never carries the exit status. -/
theorem c10_exec_command_wraps_failure (cmd : String) (ret : Int) :
    (ret ≠ 0 → exec_command cmd ret = .error (.wafError (wafErrorMsg cmd ret))) ∧
    (ret = 0 → exec_command cmd ret = .ok none) ∧
    (∀ v, exec_command cmd ret = .ok v → v = none) := by
  refine ⟨fun h => by simp [exec_command, h], fun h => by simp [exec_command, h], ?_⟩
  intro v hv
  by_cases h : ret = 0
  · simp [exec_command, h] at hv
    exact hv.symm
  · simp [exec_command, h] at hv

/-- Witness for C10 at a failing and a succeeding exit code. -/
theorem c10_exec_command_wraps_failure_witness :
    exec_command "uwsgi --ini conf" 2 = .error (.wafError (wafErrorMsg "uwsgi --ini conf" 2)) ∧
    exec_command "uwsgi --ini conf" 0 = .ok none :=
  ⟨(c10_exec_command_wraps_failure "uwsgi --ini conf" 2).1 (by decide),
   (c10_exec_command_wraps_failure "uwsgi --ini conf" 0).2.1 rfl⟩
